import Mathlib

/-!
Verification development for the asynchronous multi-sensor sampling and
buffered-logging subsystem of the power-overwhelming repository.

Shallow embedding conventions:
* C++ pointers (sensor handles `sensor_type`, callback function pointers
  `measurement_callback`, context pointers `void *`) are modelled as `Nat`,
  with `0` playing the role of `nullptr`.
* `interval_type` durations are modelled as `Nat` (a tick count).
* `std::map<sensor_type, measurement_callback>` is modelled as an association
  list with unique keys; the map's internal iteration order (sorted by
  pointer value) is abstracted to insertion order, which no verified claim
  observes.
* Exceptions are modelled with `Except` (or an explicit error component when
  the post-exception state matters).
-/

namespace PowerOverwhelming

/-- A sensor handle / callback pair as stored in
`sampler<TSensorImpl>::context::sensors`.  The first component is the sensor
pointer, the second the callback pointer. -/
abbrev SensorEntry := Nat × Nat

/-- One interval group of the sampler
(`sampler<TSensorImpl>::context` in sampler.inl): the polling interval and the
map from sensor handles to callbacks.  The worker thread and the group lock
are not part of the functional state. -/
structure Context where
  interval : Nat
  sensors : List SensorEntry
  deriving Repr, DecidableEq

/-- The state of `sampler<TSensorImpl>`: the list `_contexts` of interval
groups, in creation order (`std::vector` of pointers to contexts). -/
structure Sampler where
  contexts : List Context
  deriving Repr, DecidableEq

/-- A freshly constructed context, as produced by `new context()` in
`sampler::add`.  The constructor call passes no arguments, so the `interval`
member receives its value-initialised default (zero); in particular it is NOT
set to the interval requested by the caller of `sampler::add`. -/
def Context.new : Context := { interval := 0, sensors := [] }

/-- Membership of a sensor in a context's map
(`c->sensors.find(sensor) != c->sensors.end()`). -/
def Context.hasSensor (c : Context) (sensor : Nat) : Bool :=
  c.sensors.any (fun p => p.1 == sensor)

/-- `sampler<TSensorImpl>::context::add` (sampler.inl lines 105-125): if the
sensor is already in the map, return `false` and change nothing; otherwise
insert the (sensor, callback) pair and return `true`.  (Starting the worker
thread on the first insertion is not part of the functional state.) -/
def Context.add (c : Context) (sensor callback : Nat) : Bool × Context :=
  if c.hasSensor sensor then
    (false, c)
  else
    (true, { c with sensors := c.sensors ++ [(sensor, callback)] })

/-- `sampler<TSensorImpl>::context::erase` behaviour used by
`sampler::remove`: `c->sensors.erase(sensor)` removes the key if present; the
Bool reports whether the erase count was positive. -/
def Context.eraseSensor (c : Context) (sensor : Nat) : Bool × Context :=
  (c.hasSensor sensor, { c with sensors := c.sensors.filter (fun p => p.1 != sensor) })

/-- The context-search loop of `sampler<TSensorImpl>::add` (sampler.inl lines
34-46): walk `_contexts`; on the first context whose `interval` equals the
requested one, delegate to `context::add`; if none matches, append a new
`Context.new` (note: its interval field is left at the default, the requested
`interval` is never stored) and add the pair there. -/
def addLoop (sensor callback interval : Nat) : List Context → Bool × List Context
  | [] =>
      let r := Context.new.add sensor callback
      (r.1, [r.2])
  | c :: cs =>
      if c.interval == interval then
        let r := c.add sensor callback
        (r.1, r.2 :: cs)
      else
        let r := addLoop sensor callback interval cs
        (r.1, c :: r.2)

/-- `sampler<TSensorImpl>::add` (sampler.inl lines 21-46): reject null sensor
or callback with `std::invalid_argument` before touching any state; otherwise
run the context-search loop. -/
def Sampler.add (s : Sampler) (sensor callback interval : Nat) :
    Except String (Bool × Sampler) :=
  if sensor == 0 then
    .error "Sensors to be sampled must be a valid pointer."
  else if callback == 0 then
    .error "A valid callback must be provided to sample a sensor."
  else
    let r := addLoop sensor callback interval s.contexts
    .ok (r.1, { contexts := r.2 })

/-- `sampler<TSensorImpl>::remove` (sampler.inl lines 52-73): null sensors are
trivially rejected with `false`; otherwise the sensor is erased from every
context, and the result records whether any erase succeeded. -/
def Sampler.remove (s : Sampler) (sensor : Nat) : Bool × Sampler :=
  if sensor == 0 then
    (false, s)
  else
    (s.contexts.any (fun c => c.hasSensor sensor),
     { contexts := s.contexts.map (fun c => (c.eraseSensor sensor).2) })

/-- `sampler<TSensorImpl>::samples` (sampler.inl lines 79-99): null sensors
are trivially rejected; otherwise report whether any context's map contains
the sensor. -/
def Sampler.samples (s : Sampler) (sensor : Nat) : Bool :=
  if sensor == 0 then
    false
  else
    s.contexts.any (fun c => c.hasSensor sensor)

/-- After `context::add`, the sensor is in the context's map (whether it was
already there or has just been inserted). -/
theorem Context.add_hasSensor (c : Context) (s cb : Nat) :
    ((c.add s cb).2).hasSensor s = true := by
  simp only [Context.add, Context.hasSensor]
  by_cases h : (c.sensors.any fun p => p.1 == s) = true
  · simp [h]
  · simp [h, List.any_append]

/-- After the context-search loop of `sampler::add`, the sensor is present in
some context of the resulting list. -/
theorem addLoop_mem (s cb i : Nat) (cs : List Context) :
    ((addLoop s cb i cs).2).any (fun c => c.hasSensor s) = true := by
  induction cs with
  | nil => simp [addLoop, Context.add_hasSensor]
  | cons c cs ih =>
      by_cases h : (c.interval == i) = true
      · simp [addLoop, h, Context.add_hasSensor]
      · simp [addLoop, h, ih]

/-- After `sensors.erase(sensor)`, the sensor is no longer in the map. -/
theorem Context.erase_not_hasSensor (c : Context) (n : Nat) :
    ((c.eraseSensor n).2).hasSensor n = false := by
  simp [Context.eraseSensor, Context.hasSensor, List.any_eq_true,
    List.mem_filter]

/-- Claim C5: for every valid (sensor, callback, interval) triple (sensor and
callback non-null), `sampler::add` immediately followed by
`sampler::samples(sensor)` yields true, and `sampler::remove(sensor)`
immediately followed by `sampler::samples(sensor)` yields false. -/
theorem add_then_samples_and_remove_then_not (s : Sampler)
    (sensor callback interval : Nat) (hs : sensor ≠ 0) (hc : callback ≠ 0) :
    (∃ r, s.add sensor callback interval = Except.ok r ∧
      Sampler.samples r.2 sensor = true) ∧
    Sampler.samples (s.remove sensor).2 sensor = false := by
  constructor
  · refine ⟨((addLoop sensor callback interval s.contexts).1,
      ⟨(addLoop sensor callback interval s.contexts).2⟩), ?_, ?_⟩
    · simp [Sampler.add, hs, hc]
    · simp [Sampler.samples, hs, addLoop_mem]
  · simp only [Sampler.remove, Sampler.samples, beq_iff_eq, hs, if_false]
    simp [List.any_map, Function.comp, Context.erase_not_hasSensor, hs]

/-- Witness for C5 at a concrete input. -/
theorem add_then_samples_and_remove_then_not_witness :
    (∃ r, Sampler.add ⟨[]⟩ 1 1 5 = Except.ok r ∧
      Sampler.samples r.2 1 = true) ∧
    Sampler.samples (Sampler.remove ⟨[]⟩ 1).2 1 = false :=
  add_then_samples_and_remove_then_not ⟨[]⟩ 1 1 5 (by decide) (by decide)

/-- Claim C8: `sampler::add` with a null sensor or a null callback fails with
`std::invalid_argument`; since both null checks precede the lock and the
context loop, no interval group is touched. -/
theorem add_null_rejected (s : Sampler) (sensor callback interval : Nat)
    (h : sensor = 0 ∨ callback = 0) :
    ∃ e, s.add sensor callback interval = Except.error e := by
  by_cases hs : sensor = 0
  · exact ⟨"Sensors to be sampled must be a valid pointer.",
      by simp [Sampler.add, hs]⟩
  · rcases h with h | h
    · exact absurd h hs
    · exact ⟨"A valid callback must be provided to sample a sensor.",
        by simp [Sampler.add, hs, h]⟩

/-- Witness for C8 at a concrete input. -/
theorem add_null_rejected_witness :
    ∃ e, Sampler.add ⟨[]⟩ 0 1 5 = Except.error e :=
  add_null_rejected ⟨[]⟩ 0 1 5 (Or.inl rfl)

/-- Claim C9: `sampler::remove(sensor)` erases the sensor from every interval
group (not just the first match), and its result is true exactly when the
sensor was registered in at least one group beforehand. -/
theorem remove_removes_from_all_groups (s : Sampler) (n : Nat) (h : n ≠ 0) :
    (∀ c ∈ (s.remove n).2.contexts, c.hasSensor n = false) ∧
    ((s.remove n).1 = true ↔ ∃ c ∈ s.contexts, c.hasSensor n = true) := by
  constructor
  · intro c hc
    simp only [Sampler.remove, beq_iff_eq, h, if_false, List.mem_map] at hc
    obtain ⟨c0, _, rfl⟩ := hc
    exact Context.erase_not_hasSensor c0 n
  · simp [Sampler.remove, h, List.any_eq_true]

/-- Witness for C9 at a concrete input: sensor 1 sits in two groups and is
removed from both; the result is true. -/
theorem remove_removes_from_all_groups_witness :
    (∀ c ∈ (Sampler.remove ⟨[⟨0, [(1, 7)]⟩, ⟨3, [(1, 9), (2, 9)]⟩]⟩ 1).2.contexts,
      c.hasSensor 1 = false) ∧
    ((Sampler.remove ⟨[⟨0, [(1, 7)]⟩, ⟨3, [(1, 9), (2, 9)]⟩]⟩ 1).1 = true ↔
      ∃ c ∈ [(⟨0, [(1, 7)]⟩ : Context), ⟨3, [(1, 9), (2, 9)]⟩], c.hasSensor 1 = true) :=
  remove_removes_from_all_groups ⟨[⟨0, [(1, 7)]⟩, ⟨3, [(1, 9), (2, 9)]⟩]⟩ 1 (by decide)

/-- Claim C1 (evaluation at the failing input): adding a sensor to an empty
sampler with requested interval 5 creates a group whose stored interval is 0,
not 5 (the `new context()` call never receives the requested interval), and a
subsequent add with the same interval 5 does not find that group and creates
yet another group with stored interval 0. -/
theorem add_new_group_interval_unset :
    Sampler.add ⟨[]⟩ 1 1 5 = Except.ok (true, ⟨[⟨0, [(1, 1)]⟩]⟩) ∧
    Sampler.add ⟨[⟨0, [(1, 1)]⟩]⟩ 2 2 5 =
      Except.ok (true, ⟨[⟨0, [(1, 1)]⟩, ⟨0, [(2, 2)]⟩]⟩) := by
  constructor <;> rfl

/-- Claim C4 (evaluation at the failing input): registering the same sensor
with the same non-default interval twice returns true on the second call and
duplicates the registration in a freshly created second group, because the
first call stored the default interval 0 instead of the requested 5. -/
theorem add_same_sensor_same_interval_returns_true :
    Sampler.add ⟨[]⟩ 1 7 5 = Except.ok (true, ⟨[⟨0, [(1, 7)]⟩]⟩) ∧
    Sampler.add ⟨[⟨0, [(1, 7)]⟩]⟩ 1 7 5 =
      Except.ok (true, ⟨[⟨0, [(1, 7)]⟩, ⟨0, [(1, 7)]⟩]⟩) := by
  constructor <;> rfl

/-- The measurement value type (spec section 3): source name, timestamp, and
voltage / current / power readings.  `measurement::value_type` is modelled as
`ℚ`; the claims verified here concern which instrument reading flows into
which field, not floating-point rounding. -/
structure Measurement where
  sensor_name : String
  timestamp : Nat
  voltage : ℚ
  current : ℚ
  power : ℚ
  deriving Repr, DecidableEq

/-- The observable behaviour of the voltage/current bricklet during one
one-shot sample: the value each `voltage_current_v2_get_*` call writes through
its output pointer (milli-units) and the status code it returns. -/
structure Bricklet where
  voltageReading : Int
  currentReading : Int
  powerReading : Int
  voltageStatus : Int
  currentStatus : Int
  powerStatus : Int
  deriving Repr, DecidableEq

/-- `tinkerforge_sensor::sample(timestamp_resolution)`
(tinkerforge_sensor.cpp lines 268-310).  Locals `current`, `power`, `voltage`
start at 0.  The first bricklet call writes the voltage reading into
`voltage`; the second call — `voltage_current_v2_get_current` — also passes
`&voltage` as its output pointer in the source, so the current reading
overwrites `voltage` and the local `current` is never written; the third call
writes the power reading into `power`.  Each field of the result is the
corresponding local divided by 1000. -/
def tinkerforgeSample (disposed : Bool) (name : String) (ts : Nat)
    (dev : Bricklet) : Except String Measurement :=
  if disposed then
    .error "A disposed instance of tinkerforge_sensor cannot be sampled."
  else
    let current : Int := 0
    let power : Int := 0
    let voltage : Int := 0
    if dev.voltageStatus < 0 then .error "tinkerforge_exception"
    else
      let voltage := dev.voltageReading
      if dev.currentStatus < 0 then .error "tinkerforge_exception"
      else
        let voltage := dev.currentReading
        if dev.powerStatus < 0 then .error "tinkerforge_exception"
        else
          let power := dev.powerReading
          .ok ⟨name, ts, (voltage : ℚ) / 1000, (current : ℚ) / 1000,
            (power : ℚ) / 1000⟩

/-- Claim C2 (evaluation at the failing input): with instrument readings
voltage = 2 mV, current = 3 mA, power = 5 mW and all three calls succeeding,
the returned measurement has voltage = 3/1000 (the current reading) and
current = 0, not voltage = 2/1000 and current = 3/1000 as the claim states;
only the power field is as claimed. -/
theorem tinkerforge_sample_mixes_up_readings :
    tinkerforgeSample false "tf" 0 ⟨2, 3, 5, 0, 0, 0⟩ =
      Except.ok ⟨"tf", 0, 3 / 1000, 0, 5 / 1000⟩ ∧
    (3 / 1000 : ℚ) ≠ 2 / 1000 ∧ (0 : ℚ) ≠ 3 / 1000 := by
  refine ⟨?_, by norm_num, by norm_num⟩
  simp only [tinkerforgeSample]
  norm_num

/-- The part of `tinkerforge_sensor_impl` that the asynchronous-sampling
entry point manipulates: the registered callback (an atomic pointer, 0 for
null) and the user context pointer. -/
structure AsyncState where
  on_measurement : Nat
  on_measurement_context : Nat
  deriving Repr, DecidableEq

/-- Errors thrown by `tinkerforge_sensor::sample(callback, source, period,
context)`. -/
inductive AsyncError where
  | disposed
  | alreadySampling
  | enableFailed
  deriving Repr, DecidableEq

/-- `tinkerforge_sensor::sample(on_measurement, source, sampling_period,
context)` (tinkerforge_sensor.cpp lines 313-375), returning the post-call
state together with the exception, if any.  With a non-null callback the code
installs the callback by compare-exchange against null (failing with
`std::logic_error` if one is already installed), stores the context, then
enables the bricklet callbacks inside a try block; the catch block exchanges
the registered callback back to null and rethrows.  The bricklet enable calls
are abstracted by the oracle `enableFails`.  With a null callback the code
disables the bricklet callbacks if needed and stores null. -/
def tinkerforgeSampleAsync (disposed : Bool) (st : AsyncState)
    (callback context : Nat) (enableFails : Bool) :
    AsyncState × Option AsyncError :=
  if disposed then (st, some .disposed)
  else if callback != 0 then
    if st.on_measurement != 0 then (st, some .alreadySampling)
    else
      let st1 : AsyncState :=
        { on_measurement := callback,
          on_measurement_context := st.on_measurement_context }
      let st2 : AsyncState := { st1 with on_measurement_context := context }
      if enableFails then ({ st2 with on_measurement := 0 }, some .enableFailed)
      else (st2, none)
  else
    ({ st with on_measurement := 0 }, none)

/-- Claim C10: if enabling asynchronous sampling with a non-null callback
fails after the callback guard was set, the registered callback is reset to
null before the exception propagates (the disabled state the sensor had
before the call, since the compare-exchange required it to be null), and a
subsequent enable attempt is not rejected as already running. -/
theorem async_enable_failure_resets_callback (st : AsyncState)
    (cb ctx cb2 ctx2 : Nat) (hcb : cb ≠ 0) (hidle : st.on_measurement = 0)
    (hcb2 : cb2 ≠ 0) :
    (tinkerforgeSampleAsync false st cb ctx true).2 =
      some AsyncError.enableFailed ∧
    (tinkerforgeSampleAsync false st cb ctx true).1.on_measurement = 0 ∧
    (tinkerforgeSampleAsync false
      (tinkerforgeSampleAsync false st cb ctx true).1 cb2 ctx2 false).2 =
      none := by
  simp [tinkerforgeSampleAsync, hcb, hidle, hcb2]

/-- Witness for C10 at a concrete input. -/
theorem async_enable_failure_resets_callback_witness :
    (tinkerforgeSampleAsync false ⟨0, 0⟩ 5 9 true).2 =
      some AsyncError.enableFailed ∧
    (tinkerforgeSampleAsync false ⟨0, 0⟩ 5 9 true).1.on_measurement = 0 ∧
    (tinkerforgeSampleAsync false
      (tinkerforgeSampleAsync false ⟨0, 0⟩ 5 9 true).1 6 11 false).2 = none :=
  async_enable_failure_resets_callback ⟨0, 0⟩ 5 9 6 11 (by decide) rfl (by decide)

/-- The log of one iteration of the interval-group worker loop
(`sampler<TSensorImpl>::context::sample`): the time read at the top of the
iteration, the (sensor, callback) pairs for which `callback(sensor.sample())`
ran in this iteration, and the absolute deadline passed to `sleep_until`
(`none` when the loop exits instead of sleeping). -/
structure IterLog where
  now : Nat
  polled : List SensorEntry
  deadline : Option Nat
  deriving Repr, DecidableEq

/-- `sampler<TSensorImpl>::context::sample` (sampler.inl lines 131-152),
run against a finite observation schedule.  Concurrent mutation of the sensor
map by `add`/`remove` is abstracted by the schedule: each entry supplies the
clock value read at the top of the iteration and the snapshot of the map the
worker sees once it holds the group lock.  Mirroring the loop body: every pair
of the snapshot is sampled and its callback invoked; `have_sensors` is then
the non-emptiness of the snapshot; if it still has sensors the worker sleeps
until the absolute deadline `now + interval` and iterates, otherwise the loop
ends. -/
def workerRun (interval : Nat) :
    List (Nat × List SensorEntry) → List IterLog
  | [] => []
  | (now, snap) :: rest =>
      if snap.isEmpty then
        [⟨now, snap, none⟩]
      else
        ⟨now, snap, some (now + interval)⟩ :: workerRun interval rest

/-- Claim C6: on every iteration the worker polls exactly the registered
pairs of that iteration's snapshot, passing each sample to its callback once;
it keeps iterating with absolute deadline `now + interval` exactly while the
snapshot is non-empty, and the first empty snapshot ends the loop with no
sleep and no further iteration: the run is the non-empty prefix of the
schedule, each iteration sleeping until `now + interval`, followed by at most
one terminal iteration that polls nothing and has no deadline. -/
theorem workerRun_characterisation (interval : Nat)
    (sched : List (Nat × List SensorEntry)) :
    workerRun interval sched =
      (sched.takeWhile (fun p => !p.2.isEmpty)).map
        (fun p => ⟨p.1, p.2, some (p.1 + interval)⟩) ++
      ((sched.dropWhile (fun p => !p.2.isEmpty)).take 1).map
        (fun p => ⟨p.1, p.2, none⟩) := by
  induction sched with
  | nil => rfl
  | cons hd rest ih =>
      obtain ⟨now, snap⟩ := hd
      by_cases h : snap.isEmpty = true
      · simp [workerRun, h, List.takeWhile_cons, List.dropWhile_cons]
      · simp [workerRun, h, List.takeWhile_cons, List.dropWhile_cons, ih]

/-- The functional state of `collector_impl` (collector_impl.h): the
measurement buffer (`buffer_type = std::vector of measurement`), the marker
list (`marker_list_type`, pairs of label and buffer offset), the
`have_marker` flag and the immutable `require_marker` flag.  Threads, the
lock, the wake event and the output stream handle are not part of the
functional state. -/
structure CollectorState where
  buffer : List Measurement
  markers : List (String × Nat)
  have_marker : Bool
  require_marker : Bool
  deriving Repr, DecidableEq

/-- Modelled from the spec: the body of `collector_impl::can_buffer` is not
part of the sources at hand (only its declaration in collector_impl.h is);
the spec defines it as true once at least one marker has been set, or always
true if `require_marker` is false. -/
def canBuffer (s : CollectorState) : Bool :=
  s.have_marker || !s.require_marker

/-- Modelled from the spec: the body of `collector_impl::on_measurement` is
not part of the sources at hand; the spec says it appends the measurement to
the buffer only if `can_buffer()` permits, and discards it otherwise. -/
def onMeasurement (s : CollectorState) (m : Measurement) : CollectorState :=
  if canBuffer s then { s with buffer := s.buffer ++ [m] } else s

/-- Modelled from the spec: the body of `collector_impl::marker` is not part
of the sources at hand; the spec says it appends a marker referencing the
current buffer length, after which buffering is permitted (the `have_marker`
flag of collector_impl.h is set). -/
def setMarker (s : CollectorState) (label : String) : CollectorState :=
  { s with
    markers := s.markers ++ [(label, s.buffer.length)],
    have_marker := true }

/-- Modelled from the spec: the body of `collector_impl::write` is not part
of the sources at hand; the spec says the writer iterates the drained markers
in order and emits, per marker, its label followed by the measurements of its
section in arrival order, a marker at offset `o` opening the section that
runs until the next marker's offset (the final section, closed by the
implicit marker of `stop()`, runs to the end of the buffer). -/
def persist (buf : List Measurement) :
    List (String × Nat) → List (String × List Measurement)
  | [] => []
  | [(l, o)] => [(l, buf.drop o)]
  | (l, o) :: (l2, o2) :: ms =>
      (l, (buf.drop o).take (o2 - o)) :: persist buf ((l2, o2) :: ms)

/-- One producer-side collector event: an incoming measurement routed through
`on_measurement`, or a call to `collector_impl::marker`. -/
inductive CollectorOp where
  | measure (m : Measurement)
  | mark (label : String)
  deriving Repr, DecidableEq

/-- Dispatch one collector event. -/
def collectorStep (s : CollectorState) : CollectorOp → CollectorState
  | .measure m => onMeasurement s m
  | .mark l => setMarker s l

/-- Run a sequence of collector events. -/
def runOps (s : CollectorState) (ops : List CollectorOp) : CollectorState :=
  ops.foldl collectorStep s

/-- The state of a freshly constructed collector: empty buffer, no markers,
no marker seen yet. -/
def initCollector (requireMarker : Bool) : CollectorState :=
  ⟨[], [], false, requireMarker⟩

/-- While `can_buffer` is false, `on_measurement` is the identity, so any
sequence of incoming measurements leaves the state unchanged. -/
theorem foldl_onMeasurement_blocked (s : CollectorState)
    (h : canBuffer s = false) (ms : List Measurement) :
    ms.foldl onMeasurement s = s := by
  induction ms with
  | nil => rfl
  | cons m ms ih => simp [onMeasurement, h, ih]

/-- Claim C3: with `require_marker = true` and no marker ever set, every
sequence of `on_measurement` calls leaves the buffer empty; and whenever at
least one marker has been set, or `require_marker` is false, an incoming
measurement is appended to the buffer. -/
theorem on_measurement_gated_by_marker (ms : List Measurement)
    (s : CollectorState) (m : Measurement)
    (h : s.have_marker = true ∨ s.require_marker = false) :
    (ms.foldl onMeasurement (initCollector true)).buffer = [] ∧
    (onMeasurement s m).buffer = s.buffer ++ [m] := by
  constructor
  · rw [foldl_onMeasurement_blocked (initCollector true) rfl ms]
    rfl
  · have hc : canBuffer s = true := by
      rcases h with h | h <;> simp [canBuffer, h]
    simp [onMeasurement, hc]

/-- Witness for C3 at a concrete input. -/
theorem on_measurement_gated_by_marker_witness :
    (([⟨"a", 1, 1, 1, 1⟩, ⟨"b", 2, 2, 2, 2⟩] :
        List Measurement).foldl onMeasurement (initCollector true)).buffer = [] ∧
    (onMeasurement ⟨[], [("phase1", 0)], true, true⟩ ⟨"a", 1, 1, 1, 1⟩).buffer =
      [] ++ [⟨"a", 1, 1, 1, 1⟩] :=
  on_measurement_gated_by_marker _ ⟨[], [("phase1", 0)], true, true⟩ _ (Or.inl rfl)

/-- The persisted section labels are exactly the marker labels, in order. -/
theorem persist_map_fst (buf : List Measurement) :
    ∀ ms : List (String × Nat),
      (persist buf ms).map Prod.fst = ms.map Prod.fst
  | [] => rfl
  | [(_, _)] => rfl
  | (l, o) :: (l2, o2) :: tl => by
      simp only [persist, List.map_cons]
      rw [persist_map_fst buf ((l2, o2) :: tl)]
      simp

/-- Concatenating the persisted sections of a marker list whose offsets rise
monotonically and stay within the buffer reproduces the buffer from the first
marker's offset on. -/
theorem persist_join (buf : List Measurement) :
    ∀ (l : String) (o : Nat) (ms : List (String × Nat)),
      List.Chain' (· ≤ ·) (o :: (ms.map Prod.snd ++ [buf.length])) →
      ((persist buf ((l, o) :: ms)).map Prod.snd).flatten = buf.drop o
  | _, o, [], _ => by simp [persist]
  | l, o, (l2, o2) :: tl, h => by
      have h' := List.chain'_cons.mp (by simpa using h)
      have h1 : o ≤ o2 := h'.1
      have ih := persist_join buf l2 o2 tl h'.2
      simp only [persist, List.map_cons, List.flatten_cons]
      rw [ih]
      calc (buf.drop o).take (o2 - o) ++ buf.drop o2
          = (buf.drop o).take (o2 - o) ++ (buf.drop o).drop (o2 - o) := by
            rw [List.drop_drop, Nat.add_sub_cancel' h1]
        _ = buf.drop o := List.take_append_drop _ _

/-- A monotone chain stays monotone when its last element is raised. -/
theorem chain_raise_last {xs : List Nat} {a b : Nat}
    (h : List.Chain' (· ≤ ·) (xs ++ [a])) (hab : a ≤ b) :
    List.Chain' (· ≤ ·) (xs ++ [b]) := by
  rcases List.chain'_append.mp h with ⟨h1, _, h3⟩
  refine List.chain'_append.mpr ⟨h1, List.chain'_singleton b, ?_⟩
  intro x hx y hy
  simp only [List.head?_cons, Option.mem_def, Option.some.injEq] at hy
  subst hy
  exact le_trans (h3 x hx a (by simp)) hab

/-- A monotone chain stays monotone when its last element is repeated. -/
theorem chain_repeat_last {xs : List Nat} {a : Nat}
    (h : List.Chain' (· ≤ ·) (xs ++ [a])) :
    List.Chain' (· ≤ ·) ((xs ++ [a]) ++ [a]) := by
  refine List.chain'_append.mpr ⟨h, List.chain'_singleton a, ?_⟩
  intro x hx y hy
  simp only [List.head?_cons, Option.mem_def, Option.some.injEq] at hy
  subst hy
  rw [List.getLast?_concat] at hx
  simp only [Option.mem_def, Option.some.injEq] at hx
  subst hx
  exact le_refl a

/-- The state invariant maintained by a collector created with
`require_marker = true`: the buffer stays empty until the first marker, the
`have_marker` flag tracks the marker list, the first marker (if any) sits at
offset 0, and the marker offsets rise monotonically and never exceed the
buffer length. -/
def CollectorInv (s : CollectorState) : Prop :=
  s.require_marker = true ∧
  (s.have_marker = false → s.buffer = []) ∧
  (s.markers = [] → s.have_marker = false) ∧
  (∀ p ∈ s.markers.head?, p.2 = 0) ∧
  List.Chain' (· ≤ ·) (s.markers.map Prod.snd ++ [s.buffer.length])

/-- The initial collector state satisfies the invariant. -/
theorem collectorInv_init : CollectorInv (initCollector true) := by
  refine ⟨rfl, fun _ => rfl, fun _ => rfl, ?_, ?_⟩ <;> simp [initCollector]

/-- Both collector events preserve the invariant. -/
theorem collectorInv_step (s : CollectorState) (op : CollectorOp)
    (h : CollectorInv s) : CollectorInv (collectorStep s op) := by
  obtain ⟨hrm, hbuf, hmk, hhead, hchain⟩ := h
  cases op with
  | measure m =>
      simp only [collectorStep]
      by_cases hc : canBuffer s = true
      · have hhm : s.have_marker = true := by
          simpa [canBuffer, hrm] using hc
        simp only [onMeasurement, hc, if_true]
        refine ⟨hrm, ?_, hmk, hhead, ?_⟩
        · intro h'
          simp only at h'
          rw [hhm] at h'
          cases h'
        · simpa [List.length_append] using
            chain_raise_last hchain (Nat.le_succ s.buffer.length)
      · simp only [onMeasurement, hc, if_false]
        exact ⟨hrm, hbuf, hmk, hhead, hchain⟩
  | mark l =>
      simp only [collectorStep, setMarker]
      refine ⟨hrm, ?_, ?_, ?_, ?_⟩
      · intro h'
        simp only at h'
        cases h'
      · intro h'
        simp only at h'
        exact absurd h' (by simp)
      · intro p hp
        simp only at hp
        cases hms : s.markers with
        | nil =>
            rw [hms] at hp
            simp only [List.nil_append, List.head?_cons, Option.mem_def,
              Option.some.injEq] at hp
            subst hp
            simp [hbuf (hmk hms)]
        | cons m0 rest =>
            rw [hms] at hp
            simp only [List.cons_append, List.head?_cons, Option.mem_def,
              Option.some.injEq] at hp
            subst hp
            exact hhead m0 (by simp [hms])
      · have := chain_repeat_last hchain
        simpa [List.map_append, List.append_assoc] using this

/-- Every run from the initial `require_marker = true` state lands in the
invariant. -/
theorem collectorInv_run (ops : List CollectorOp) (s : CollectorState)
    (h : CollectorInv s) : CollectorInv (runOps s ops) := by
  induction ops generalizing s with
  | nil => exact h
  | cons op ops ih =>
      simpa [runOps] using ih (collectorStep s op)
        (collectorInv_step s op h)

/-- Claim C7: for any sequence of incoming measurements and marker calls on a
collector with `require_marker = true`, the persisted output consists of
sections labelled by the markers in the order they were set, and the
concatenation of the sections' measurements is exactly the buffer — every
buffered measurement appears exactly once, in buffer-append order. -/
theorem collector_persist_roundtrip (ops : List CollectorOp) :
    ((persist (runOps (initCollector true) ops).buffer
        (runOps (initCollector true) ops).markers).map Prod.fst =
      (runOps (initCollector true) ops).markers.map Prod.fst) ∧
    (((persist (runOps (initCollector true) ops).buffer
        (runOps (initCollector true) ops).markers).map Prod.snd).flatten =
      (runOps (initCollector true) ops).buffer) := by
  obtain ⟨hrm, hbuf, hmk, hhead, hchain⟩ :=
    collectorInv_run ops (initCollector true) collectorInv_init
  set s := runOps (initCollector true) ops with hs
  refine ⟨persist_map_fst _ _, ?_⟩
  rcases hms : s.markers with _ | ⟨⟨l, o⟩, tl⟩
  · rw [hbuf (hmk hms)]
    simp [persist]
  · have ho : o = 0 := hhead (l, o) (by simp [hms])
    have hch : List.Chain' (· ≤ ·) (o :: (tl.map Prod.snd ++ [s.buffer.length])) := by
      rw [hms] at hchain
      simpa using hchain
    rw [persist_join s.buffer l o tl hch, ho, List.drop_zero]

end PowerOverwhelming
